import Mathlib

/-!
Shallow embedding of the task-management-dashboard auth layer.

The TypeScript sources embedded here:
* `src/app/core/models/user.interface.ts` — `UserRole`, `Profile`,
  `SignUpRequest`, `SignInRequest`, `AuthResponse`;
* `src/app/core/models/task.interface.ts`, `column.interface.ts` — field
  type tables for `Task`/`UpdateTaskRequest`, `Column`/`UpdateColumnRequest`;
* `src/app/core/services/auth.service.ts` — `AuthService` state
  (profile/loading/error signals), `formatAuthError`, `fetchProfile`,
  `signUp`, `signIn`, `signOut`, `updateProfile`, `initializeAuth`;
* `src/app/features/auth/pages/register/register.component.ts` and the login
  component — form validation and `onSubmit`.

Backend (Supabase SDK) calls are modelled as oracle inputs: each operation
takes the SDK response(s) it would receive as explicit arguments and returns,
besides the new state, the list of backend requests it issued.
-/

/-- JavaScript string containment on the character list of a `String`:
`leadChars pat text` holds when `pat` is an initial segment of `text`. -/
def leadChars : List Char → List Char → Bool
  | [], _ => true
  | _ :: _, [] => false
  | a :: as, b :: bs => a == b && leadChars as bs

/-- `hasChars pat text`: `pat` occurs contiguously somewhere in `text`. -/
def hasChars (pat : List Char) : List Char → Bool
  | [] => leadChars pat []
  | c :: cs => leadChars pat (c :: cs) || hasChars pat cs

/-- Embedding of JavaScript `e.includes(k)` (substring containment). -/
def strIncludes (e k : String) : Bool :=
  hasChars k.data e.data

/-- Embedding of the JavaScript expression `x || y` on a nullable string:
`null` and the empty string are falsy and select the fallback `y`. -/
def jsOrString (x : Option String) (y : String) : String :=
  match x with
  | none => y
  | some s => if s = "" then y else s

/-- `UserRole` enum (`user.interface.ts`). -/
inductive UserRole where
  | ADMIN
  | MEMBER
  deriving DecidableEq, Repr

/-- `Profile` record (`user.interface.ts`): nullable fields are `Option`. -/
structure Profile where
  id : String
  email : String
  full_name : Option String
  avatar_url : Option String
  role : UserRole
  created_at : String
  updated_at : String
  deriving DecidableEq, Repr

/-- `SignUpRequest` (`user.interface.ts`); `role` is optional. -/
structure SignUpRequest where
  email : String
  password : String
  full_name : String
  role : Option UserRole
  deriving DecidableEq, Repr

/-- `SignInRequest` (`user.interface.ts`). -/
structure SignInRequest where
  email : String
  password : String
  deriving DecidableEq, Repr

/-- `AuthResponse` (`user.interface.ts`). -/
structure AuthResponse where
  success : Bool
  error : Option String
  profile : Option Profile
  deriving DecidableEq, Repr

/-- The mutable state of `AuthService`: the three signals
`profileSignal`, `loadingSignal`, `errorSignal`. -/
structure AuthState where
  profile : Option Profile
  loading : Bool
  error : Option String
  deriving DecidableEq, Repr

/-- `isAuthenticated` computed signal: `profileSignal() !== null`. -/
def isAuthenticated (s : AuthState) : Bool :=
  s.profile.isSome

/-- `isAdmin` computed signal: `profileSignal()?.role === UserRole.ADMIN`;
optional chaining on a null profile yields `undefined`, which is not
`'admin'`. -/
def isAdmin (s : AuthState) : Bool :=
  match s.profile with
  | some p => p.role == UserRole.ADMIN
  | none => false

/-- One backend request issued through the Supabase SDK. -/
inductive BackendCall where
  | authSignUp (email password fullName : String) (role : UserRole)
  | authSignIn (email password : String)
  | authSignOut
  | profilesSelect (userId : String)
  | profilesUpdate (userId : String)
  deriving DecidableEq, Repr

/-- Outcome of an SDK auth call (`auth.signUp` / `auth.signInWithPassword`):
the promise resolves with `{ data: { user }, error }` — modelled by the
optional user id and the optional `error.message` — or rejects with an
exception whose `.message` may be absent. -/
inductive SdkAuthResult where
  | resolved (userId : Option String) (errorMsg : Option String)
  | rejected (msg : Option String)
  deriving DecidableEq, Repr

/-- Outcome of the `profiles` select issued by `fetchProfile`: the row, or
an error (a thrown query error is caught inside `fetchProfile`). -/
abbrev ProfileFetchResult := Except String Profile

/-- The seven-entry `errorMap` of `AuthService.formatAuthError`, in source
(insertion) order. -/
def errorMap : List (String × String) :=
  [("Invalid login credentials",
    "Invalid email or password. Please try again."),
   ("Email not confirmed",
    "Please verify your email address before signing in."),
   ("User already registered",
    "An account with this email already exists."),
   ("Password should be at least 6 characters",
    "Password must be at least 6 characters long."),
   ("Unable to validate email address: invalid format",
    "Please enter a valid email address."),
   ("Database error saving new user",
    "Registration failed. Please try again."),
   ("signup is disabled",
    "Registration is currently disabled. Please contact support.")]

/-- The `for (const [key, value] of Object.entries(errorMap))` loop of
`formatAuthError`: return the value of the first key the error contains. -/
def formatAuthErrorLoop : List (String × String) → String → String
  | [], e => e
  | (k, v) :: rest, e =>
      if strIncludes e k then v else formatAuthErrorLoop rest e

/-- `AuthService.formatAuthError`. -/
def formatAuthError (e : String) : String :=
  formatAuthErrorLoop errorMap e

/-- `AuthService.fetchProfile userId`: a successful select stores the row
and clears the error signal; any failure nulls the profile and sets the
error signal. Returns the new state and the backend request issued. -/
def fetchProfile (s : AuthState) (userId : String)
    (resp : ProfileFetchResult) : AuthState × List BackendCall :=
  (match resp with
   | .ok p => { s with profile := some p, error := none }
   | .error _ =>
       { s with profile := none, error := some "Failed to load user profile" },
   [BackendCall.profilesSelect userId])

/-- The subscription body of `AuthService.initializeAuth`, run on every
emission of `SupabaseService.currentUser$`: a null user nulls the profile
signal; a non-null user triggers `fetchProfile(user.id)`. -/
def onAuthUserEmission (s : AuthState) (user : Option String)
    (resp : ProfileFetchResult) : AuthState × List BackendCall :=
  match user with
  | some uid => fetchProfile s uid resp
  | none => ({ s with profile := none }, [])

/-- `AuthService.signUp request`, with the SDK responses as oracles:
`authResp` is the outcome of `auth.signUp`, `profResp` the outcome of the
profile select issued by the `fetchProfile` on the success path (unused
otherwise). Returns the final state, the emitted `AuthResponse`, and the
backend requests issued, in order. -/
def signUp (s : AuthState) (request : SignUpRequest)
    (authResp : SdkAuthResult) (profResp : ProfileFetchResult) :
    AuthState × AuthResponse × List BackendCall :=
  let s0 : AuthState := { s with loading := true, error := none }
  let authCall := BackendCall.authSignUp request.email request.password
    request.full_name (request.role.getD UserRole.MEMBER)
  match authResp with
  | .rejected msg =>
      let em := formatAuthError (jsOrString msg "An unexpected error occurred")
      ({ s0 with error := some em, loading := false },
       { success := false, error := some em, profile := none }, [authCall])
  | .resolved user? err? =>
    match err? with
    | some m =>
        let em := formatAuthError m
        ({ s0 with error := some em, loading := false },
         { success := false, error := some em, profile := none }, [authCall])
    | none =>
      match user? with
      | none =>
          ({ s0 with error := some "User creation failed. Please try again.",
                     loading := false },
           { success := false, error := some "User creation failed",
             profile := none }, [authCall])
      | some uid =>
          let fp := fetchProfile s0 uid profResp
          ({ fp.1 with loading := false },
           { success := true, error := none, profile := fp.1.profile },
           authCall :: fp.2)

/-- `AuthService.signIn request`, with the SDK responses as oracles
(`authResp` from `auth.signInWithPassword`, `profResp` from the success-path
profile select). -/
def signIn (s : AuthState) (request : SignInRequest)
    (authResp : SdkAuthResult) (profResp : ProfileFetchResult) :
    AuthState × AuthResponse × List BackendCall :=
  let s0 : AuthState := { s with loading := true, error := none }
  let authCall := BackendCall.authSignIn request.email request.password
  match authResp with
  | .rejected msg =>
      let em := formatAuthError (jsOrString msg "An unexpected error occurred")
      ({ s0 with error := some em, loading := false },
       { success := false, error := some em, profile := none }, [authCall])
  | .resolved user? err? =>
    match err? with
    | some m =>
        let em := formatAuthError m
        ({ s0 with error := some em, loading := false },
         { success := false, error := some em, profile := none }, [authCall])
    | none =>
      match user? with
      | none =>
          ({ s0 with
               error := some "Sign in failed. Please check your credentials.",
               loading := false },
           { success := false, error := some "Sign in failed",
             profile := none }, [authCall])
      | some uid =>
          let fp := fetchProfile s0 uid profResp
          ({ fp.1 with loading := false },
           { success := true, error := none, profile := fp.1.profile },
           authCall :: fp.2)

/-- `AuthService.signOut`: `failed` is true when `auth.signOut` returned an
error or rejected. Returns the final state, the navigation target issued,
and the backend requests. Both paths clear the profile, navigate to the
login page, and (in `finally`) clear the loading flag. -/
def signOut (s : AuthState) (failed : Bool) :
    AuthState × Option String × List BackendCall :=
  let s0 : AuthState := { s with loading := true, error := none }
  if failed then
    ({ s0 with error := some "Failed to sign out. Please try again.",
               profile := none, loading := false },
     some "/auth/login", [BackendCall.authSignOut])
  else
    ({ s0 with profile := none, loading := false },
     some "/auth/login", [BackendCall.authSignOut])

/-- Outcome of the `profiles` update issued by `updateProfile`: resolves
with an optional error, or the promise rejects. -/
inductive SdkUpdateResult where
  | resolved (errorMsg : Option String)
  | rejected
  deriving DecidableEq, Repr

/-- `AuthService.updateProfile`: `updResp` is the outcome of the `profiles`
update, `profResp` of the success-path refetch. `if (!userId)` is JS
truthiness, so a profile with an empty-string id counts as no user.
Returns the final state, the boolean result, and the backend requests. -/
def updateProfile (s : AuthState) (updResp : SdkUpdateResult)
    (profResp : ProfileFetchResult) :
    AuthState × Bool × List BackendCall :=
  match s.profile with
  | none => ({ s with error := some "No user logged in" }, false, [])
  | some p =>
    if p.id = "" then
      ({ s with error := some "No user logged in" }, false, [])
    else
      let s0 : AuthState := { s with loading := true }
      match updResp with
      | .resolved (some _) =>
          ({ s0 with error := some "Failed to update profile",
                     loading := false },
           false, [BackendCall.profilesUpdate p.id])
      | .rejected =>
          ({ s0 with error := some "Failed to update profile",
                     loading := false },
           false, [BackendCall.profilesUpdate p.id])
      | .resolved none =>
          let fp := fetchProfile s0 p.id profResp
          ({ fp.1 with loading := false }, true,
           BackendCall.profilesUpdate p.id :: fp.2)

/-- Angular `Validators.required` on a text control: fails exactly on the
empty value. -/
def requiredOk (v : String) : Bool :=
  v != ""

/-- Angular `Validators.minLength n`: passes on an empty value (length is
only checked once the control has a value). -/
def minLengthOk (n : Nat) (v : String) : Bool :=
  v == "" || n ≤ v.length

/-- Angular `Validators.email` with the framework's well-formedness check
abstracted as `emailValid`: passes on an empty value. -/
def emailOk (emailValid : String → Bool) (v : String) : Bool :=
  v == "" || emailValid v

/-- The only group-level validation error the registration form produces. -/
inductive ValidationErr where
  | passwordMismatch
  deriving DecidableEq, Repr

/-- `RegisterComponent.passwordMatchValidator`: `get` models
`control.get(name)`; a missing control yields `null` (no error), otherwise
the error is reported exactly when the two values differ. -/
def passwordMatchValidator (get : String → Option String) :
    Option ValidationErr :=
  match get "password", get "confirmPassword" with
  | some password, some confirmPassword =>
      if password = confirmPassword then none
      else some ValidationErr.passwordMismatch
  | _, _ => none

/-- Value of the registration form's four controls. -/
structure RegisterFormValue where
  fullName : String
  email : String
  password : String
  confirmPassword : String
  deriving DecidableEq, Repr

/-- `control.get` on the registration form group: all four controls exist. -/
def registerFormGet (f : RegisterFormValue) : String → Option String :=
  fun name =>
    if name = "fullName" then some f.fullName
    else if name = "email" then some f.email
    else if name = "password" then some f.password
    else if name = "confirmPassword" then some f.confirmPassword
    else none

/-- Validity of the registration form: every control validator passes
(`fullName`: required + minLength 2, `email`: required + email,
`password`: required + minLength 6, `confirmPassword`: required) and the
group-level `passwordMatchValidator` reports no error. -/
def registerFormValid (emailValid : String → Bool)
    (f : RegisterFormValue) : Bool :=
  requiredOk f.fullName && minLengthOk 2 f.fullName &&
  requiredOk f.email && emailOk emailValid f.email &&
  requiredOk f.password && minLengthOk 6 f.password &&
  requiredOk f.confirmPassword &&
  (passwordMatchValidator (registerFormGet f)).isNone

/-- Value of the login form's controls. -/
structure LoginFormValue where
  email : String
  password : String
  rememberMe : Bool
  deriving DecidableEq, Repr

/-- Validity of the login form (`email`: required + email, `password`:
required + minLength 6; `rememberMe` has no validators). -/
def loginFormValid (emailValid : String → Bool) (f : LoginFormValue) : Bool :=
  requiredOk f.email && emailOk emailValid f.email &&
  requiredOk f.password && minLengthOk 6 f.password

/-- The mutable UI state of `LoginComponent` relevant to submission. -/
structure LoginUiState where
  isLoading : Bool
  errorMessage : Option String
  navigatedTo : Option String
  deriving DecidableEq, Repr

/-- The `next` handler of `LoginComponent.onSubmit`'s subscriber: on
success navigate to the dashboard; otherwise show
`response.error || 'Sign in failed. Please try again.'` (JS truthiness)
and stop loading. -/
def loginHandleResponse (ui : LoginUiState) (r : AuthResponse) :
    LoginUiState :=
  if r.success then
    { ui with navigatedTo := some "/dashboard" }
  else
    { ui with
        errorMessage :=
          some (jsOrString r.error "Sign in failed. Please try again."),
        isLoading := false }

/-- Result of one `LoginComponent.onSubmit` call: the UI state after the
synchronous part, whether `markAllAsTouched` ran, and the `signIn` request
issued (none when the form was invalid). -/
structure LoginSubmit where
  ui : LoginUiState
  markedTouched : Bool
  signInCall : Option SignInRequest
  deriving DecidableEq, Repr

/-- `LoginComponent.onSubmit`: an invalid form only marks all controls
touched; a valid form starts loading, clears the message, and issues
`signIn` with the form credentials. -/
def loginOnSubmit (emailValid : String → Bool) (ui : LoginUiState)
    (f : LoginFormValue) : LoginSubmit :=
  if loginFormValid emailValid f = false then
    { ui := ui, markedTouched := true, signInCall := none }
  else
    { ui := { ui with isLoading := true, errorMessage := none },
      markedTouched := false,
      signInCall := some { email := f.email, password := f.password } }

/-- Result of one `RegisterComponent.onSubmit` call (signals version):
whether `markAllAsTouched` ran, whether `authService.clearError()` was
called, and the `signUp` request issued (none when the form was invalid). -/
structure RegisterSubmit where
  markedTouched : Bool
  clearErrorCalled : Bool
  signUpCall : Option SignUpRequest
  deriving DecidableEq, Repr

/-- `RegisterComponent.onSubmit`: an invalid form only marks all controls
touched; a valid form clears the service error and issues `signUp` with the
form data (no explicit role). -/
def registerOnSubmit (emailValid : String → Bool) (f : RegisterFormValue) :
    RegisterSubmit :=
  if registerFormValid emailValid f = false then
    { markedTouched := true, clearErrorCalled := false, signUpCall := none }
  else
    { markedTouched := false, clearErrorCalled := true,
      signUpCall := some { email := f.email, password := f.password,
                           full_name := f.fullName, role := none } }

/-- TypeScript field types appearing in the entity and request records. -/
inductive TsType where
  | str
  | num
  | tsEnum (name : String)
  | orNull (t : TsType)
  deriving DecidableEq, Repr

/-- A record modelled as its field table: name, type, and whether the field
is optional (`?`). -/
abbrev FieldTable := List (String × TsType × Bool)

/-- Look up the declared type of a field. -/
def fieldType (fs : FieldTable) (name : String) : Option TsType :=
  (fs.find? (fun f => f.1 == name)).map (fun f => f.2.1)

/-- `Task` (`task.interface.ts`). -/
def taskFields : FieldTable :=
  [("id", .str, false), ("board_id", .str, false), ("column_id", .str, false),
   ("title", .str, false), ("description", .orNull .str, false),
   ("assigned_to", .orNull .str, false), ("position", .num, false),
   ("priority", .tsEnum "TaskPriority", false),
   ("due_date", .orNull .str, false), ("created_by", .str, false),
   ("created_at", .str, false), ("updated_at", .str, false)]

/-- `UpdateTaskRequest` (`task.interface.ts`): note `position?: string`. -/
def updateTaskRequestFields : FieldTable :=
  [("title", .str, true), ("description", .str, true),
   ("assigned_to", .str, true), ("column_id", .str, true),
   ("position", .str, true), ("priority", .tsEnum "TaskPriority", true),
   ("due_date", .orNull .str, true)]

/-- `Column` (`column.interface.ts`). -/
def columnFields : FieldTable :=
  [("id", .str, false), ("board_id", .str, false), ("name", .str, false),
   ("position", .num, false), ("created_at", .str, false),
   ("updated_at", .str, false)]

/-- `UpdateColumnRequest` (`column.interface.ts`): note
`position?: string`, while its own doc comment says `{number} position`. -/
def updateColumnRequestFields : FieldTable :=
  [("name", .str, true), ("position", .str, true)]

/-- The early-return loop of `formatAuthError` returns the value of the
first entry whose key the error contains, and the error itself when no
entry matches. -/
theorem formatAuthErrorLoop_eq_find (l : List (String × String)) (e : String) :
    formatAuthErrorLoop l e =
      (((l.find? fun kv => strIncludes e kv.1).map Prod.snd).getD e) := by
  induction l with
  | nil => rfl
  | cons kv rest ih =>
      obtain ⟨k, v⟩ := kv
      by_cases h : strIncludes e k
      · simp [formatAuthErrorLoop, List.find?, h]
      · simp only [Bool.not_eq_true] at h
        simp [formatAuthErrorLoop, List.find?, h, ih]

/-- Claim C2: `formatAuthError e` returns the mapped message of the first
known Supabase error pattern that `e` contains, taken from the fixed
seven-entry map (in particular, an error containing
`Invalid login credentials` maps to
`Invalid email or password. Please try again.`), and returns `e` itself
when `e` contains none of the known patterns. -/
theorem formatAuthError_spec (e : String) :
    formatAuthError e =
      (((errorMap.find? fun kv => strIncludes e kv.1).map Prod.snd).getD e) ∧
    ((∀ kv ∈ errorMap, strIncludes e kv.1 = false) → formatAuthError e = e) ∧
    formatAuthError "Invalid login credentials" =
      "Invalid email or password. Please try again." := by
  refine ⟨formatAuthErrorLoop_eq_find errorMap e, ?_, by decide⟩
  intro h
  rw [formatAuthError, formatAuthErrorLoop_eq_find, List.find?_eq_none.mpr]
  · rfl
  · intro kv hkv
    simp [h kv hkv]

/-- Witness for C2: a message matching no known pattern passes through
unchanged. -/
theorem formatAuthError_spec_witness :
    formatAuthError "boom" = "boom" :=
  (formatAuthError_spec "boom").2.1 (by decide)

/-- Claim C7 (code bug): `position` is declared `string` in both
`UpdateTaskRequest` and `UpdateColumnRequest`, while `Task.position` and
`Column.position` are `number` — contradicting `UpdateColumnRequest`'s own
doc comment `@property {number} position`. -/
theorem position_field_type_mismatch :
    fieldType updateTaskRequestFields "position" = some TsType.str ∧
    fieldType taskFields "position" = some TsType.num ∧
    fieldType updateColumnRequestFields "position" = some TsType.str ∧
    fieldType columnFields "position" = some TsType.num ∧
    TsType.str ≠ TsType.num := by decide

/-- Claim C9: `signOut` always ends with a null profile, a navigation to
the login page, and loading cleared; on failure the error signal carries
the sign-out error message. -/
theorem signOut_spec (s : AuthState) (failed : Bool) :
    (signOut s failed).1.profile = none ∧
    (signOut s failed).1.loading = false ∧
    (signOut s failed).2.1 = some "/auth/login" ∧
    (failed = true →
      (signOut s failed).1.error =
        some "Failed to sign out. Please try again.") := by
  cases failed <;> simp [signOut]

/-- Witness for C9 at a concrete authenticated state with a failing
backend sign-out. -/
theorem signOut_spec_witness :
    (signOut ⟨none, true, some "x"⟩ true).1.profile = none ∧
    (signOut ⟨none, true, some "x"⟩ true).1.error =
      some "Failed to sign out. Please try again." :=
  ⟨(signOut_spec ⟨none, true, some "x"⟩ true).1,
   (signOut_spec ⟨none, true, some "x"⟩ true).2.2.2 rfl⟩

/-- Claim C10: whenever the computed `isAdmin` is true, the profile is
non-null, so `isAuthenticated` is true. -/
theorem isAdmin_implies_isAuthenticated (s : AuthState)
    (h : isAdmin s = true) : isAuthenticated s = true := by
  cases hp : s.profile with
  | none => simp [isAdmin, hp] at h
  | some p => simp [isAuthenticated, hp]

/-- Witness for C10 at a concrete admin state. -/
theorem isAdmin_implies_isAuthenticated_witness :
    isAuthenticated
      { profile := some { id := "u1", email := "a@b.c", full_name := none,
                          avatar_url := none, role := UserRole.ADMIN,
                          created_at := "", updated_at := "" },
        loading := false, error := none } = true :=
  isAdmin_implies_isAuthenticated _ (by decide)

/-- Claim C4: every `AuthResponse` emitted by `signUp` or `signIn` has a
non-null error and a null profile when `success` is false, and a null
error when `success` is true. -/
theorem auth_response_consistency (s : AuthState)
    (su : SignUpRequest) (si : SignInRequest)
    (ar : SdkAuthResult) (pr : ProfileFetchResult) :
    (((signUp s su ar pr).2.1.success = false →
        ((signUp s su ar pr).2.1.error).isSome = true ∧
        (signUp s su ar pr).2.1.profile = none) ∧
     ((signUp s su ar pr).2.1.success = true →
        (signUp s su ar pr).2.1.error = none)) ∧
    (((signIn s si ar pr).2.1.success = false →
        ((signIn s si ar pr).2.1.error).isSome = true ∧
        (signIn s si ar pr).2.1.profile = none) ∧
     ((signIn s si ar pr).2.1.success = true →
        (signIn s si ar pr).2.1.error = none)) := by
  rcases ar with ⟨user?, err?⟩ | msg
  · rcases err? with _ | m <;> rcases user? with _ | uid <;>
      rcases pr with msg | p <;> simp [signUp, signIn, fetchProfile]
  · simp [signUp, signIn]

/-- Witness for C4: a failing concrete sign-in reports an error and no
profile. -/
theorem auth_response_consistency_witness :
    ((signIn ⟨none, false, none⟩ ⟨"a@b.c", "pw"⟩
        (SdkAuthResult.resolved none (some "Invalid login credentials"))
        (Except.error "unused")).2.1.error).isSome = true ∧
    (signIn ⟨none, false, none⟩ ⟨"a@b.c", "pw"⟩
        (SdkAuthResult.resolved none (some "Invalid login credentials"))
        (Except.error "unused")).2.1.profile = none :=
  (auth_response_consistency ⟨none, false, none⟩
      ⟨"a@b.c", "pw", "A", none⟩ ⟨"a@b.c", "pw"⟩
      (SdkAuthResult.resolved none (some "Invalid login credentials"))
      (Except.error "unused")).2.1 (by decide)

/-- Claim C3: on every emission of the backend user stream, a null user
nulls the profile signal (so `isAuthenticated` is false) with no backend
request; a non-null user triggers exactly one profile select for that
user's id, whose success stores the row and whose failure nulls the
profile and sets the error signal to `Failed to load user profile`. -/
theorem auth_state_mirror_spec (s : AuthState) (user : Option String)
    (resp : ProfileFetchResult) :
    (user = none →
      (onAuthUserEmission s user resp).1.profile = none ∧
      isAuthenticated (onAuthUserEmission s user resp).1 = false ∧
      (onAuthUserEmission s user resp).2 = []) ∧
    (∀ uid, user = some uid →
      (onAuthUserEmission s user resp).2 = [BackendCall.profilesSelect uid] ∧
      (∀ p, resp = Except.ok p →
        (onAuthUserEmission s user resp).1.profile = some p) ∧
      (∀ msg, resp = Except.error msg →
        (onAuthUserEmission s user resp).1.profile = none ∧
        (onAuthUserEmission s user resp).1.error =
          some "Failed to load user profile")) := by
  cases user <;> rcases resp with msg | p <;>
    simp [onAuthUserEmission, fetchProfile, isAuthenticated]

/-- Witness for C3: a concrete emission with a failing profile fetch nulls
the profile and records the fetch error. -/
theorem auth_state_mirror_spec_witness :
    (onAuthUserEmission ⟨none, false, none⟩ (some "u1")
        (Except.error "e")).1.profile = none ∧
    (onAuthUserEmission ⟨none, false, none⟩ (some "u1")
        (Except.error "e")).1.error = some "Failed to load user profile" :=
  ((auth_state_mirror_spec ⟨none, false, none⟩ (some "u1")
      (Except.error "e")).2 "u1" rfl).2.2 "e" rfl

/-- Counterexample for C1: a successful `signUp` issues two backend
requests (the auth call and the profile select), not one. -/
theorem signUp_two_backend_calls :
    ((signUp ⟨none, false, none⟩ ⟨"a@b.c", "secret1", "Alice", none⟩
        (SdkAuthResult.resolved (some "u1") none)
        (Except.ok ⟨"u1", "a@b.c", none, none, UserRole.MEMBER, "t0", "t0"⟩)
      ).2.2).length = 2 ∧
    ¬ (((signUp ⟨none, false, none⟩ ⟨"a@b.c", "secret1", "Alice", none⟩
        (SdkAuthResult.resolved (some "u1") none)
        (Except.ok ⟨"u1", "a@b.c", none, none, UserRole.MEMBER, "t0", "t0"⟩)
      ).2.2).length ≤ 1) := by decide

/-- Claim C1 (amended): each invocation of `signUp`, `signIn`, `signOut`,
`updateProfile` issues at most two backend SDK requests — the primary
request (issued first) plus at most one profile refetch on the success
path; `signOut` issues exactly one. -/
theorem backend_calls_bounded (s : AuthState)
    (su : SignUpRequest) (si : SignInRequest)
    (ar : SdkAuthResult) (pr : ProfileFetchResult)
    (failed : Bool) (ur : SdkUpdateResult) :
    ((signUp s su ar pr).2.2).length ≤ 2 ∧
    ((signUp s su ar pr).2.2).head? =
      some (BackendCall.authSignUp su.email su.password su.full_name
        (su.role.getD UserRole.MEMBER)) ∧
    ((signIn s si ar pr).2.2).length ≤ 2 ∧
    ((signIn s si ar pr).2.2).head? =
      some (BackendCall.authSignIn si.email si.password) ∧
    ((signOut s failed).2.2) = [BackendCall.authSignOut] ∧
    ((updateProfile s ur pr).2.2).length ≤ 2 := by
  refine ⟨?_, ?_, ?_, ?_, ?_, ?_⟩
  · rcases ar with ⟨user?, err?⟩ | msg
    · rcases err? with _ | m <;> rcases user? with _ | uid <;>
        simp [signUp, fetchProfile]
    · simp [signUp]
  · rcases ar with ⟨user?, err?⟩ | msg
    · rcases err? with _ | m <;> rcases user? with _ | uid <;>
        simp [signUp, fetchProfile]
    · simp [signUp]
  · rcases ar with ⟨user?, err?⟩ | msg
    · rcases err? with _ | m <;> rcases user? with _ | uid <;>
        simp [signIn, fetchProfile]
    · simp [signIn]
  · rcases ar with ⟨user?, err?⟩ | msg
    · rcases err? with _ | m <;> rcases user? with _ | uid <;>
        simp [signIn, fetchProfile]
    · simp [signIn]
  · cases failed <;> simp [signOut]
  · rcases s with ⟨_ | p, ld, er⟩
    · simp [updateProfile]
    · rcases ur with ⟨_ | m⟩ | _ <;>
        by_cases hid : p.id = "" <;> simp [updateProfile, fetchProfile, hid]

/-- Claim C5: a valid registration form has a full name of at least 2
characters, a well-formed email, a password of at least 6 characters, and
a present confirm password; and whenever both password controls exist,
`passwordMatchValidator` returns no error exactly when the two values are
equal, and the mismatch error otherwise. -/
theorem register_validation_spec (emailValid : String → Bool)
    (f : RegisterFormValue) (get : String → Option String) (p c : String) :
    (registerFormValid emailValid f = true →
      2 ≤ f.fullName.length ∧ emailValid f.email = true ∧
      6 ≤ f.password.length ∧ f.confirmPassword ≠ "") ∧
    (get "password" = some p → get "confirmPassword" = some c →
      ((passwordMatchValidator get = none ↔ p = c) ∧
       (p ≠ c →
         passwordMatchValidator get =
           some ValidationErr.passwordMismatch))) := by
  constructor
  · intro h
    simp only [registerFormValid, requiredOk, minLengthOk, emailOk,
      Bool.and_eq_true, Bool.or_eq_true, bne_iff_ne, beq_iff_eq,
      decide_eq_true_eq, ne_eq] at h
    tauto
  · intro hp hc
    have hpm : passwordMatchValidator get =
        if p = c then none else some ValidationErr.passwordMismatch := by
      simp [passwordMatchValidator, hp, hc]
    by_cases hpc : p = c <;> simp [hpm, hpc]

/-- Witness for C5 at a concrete valid form. -/
theorem register_validation_spec_witness :
    2 ≤ ("Jo" : String).length ∧
    passwordMatchValidator
      (registerFormGet ⟨"Jo", "a@b.c", "secret", "secret"⟩) = none :=
  ⟨((register_validation_spec (fun _ => true)
        ⟨"Jo", "a@b.c", "secret", "secret"⟩
        (registerFormGet ⟨"Jo", "a@b.c", "secret", "secret"⟩)
        "secret" "secret").1 (by decide)).1,
   (((register_validation_spec (fun _ => true)
        ⟨"Jo", "a@b.c", "secret", "secret"⟩
        (registerFormGet ⟨"Jo", "a@b.c", "secret", "secret"⟩)
        "secret" "secret").2 (by decide) (by decide)).1).mpr rfl⟩

/-- Counterexample for C6: on a response with a non-null empty-string
error, the handler shows the fallback message, not `response.error`. -/
theorem login_error_fallback_counterexample :
    (loginHandleResponse ⟨true, none, none⟩
        { success := false, error := some "", profile := none }).errorMessage
      ≠ some "" ∧
    (loginHandleResponse ⟨true, none, none⟩
        { success := false, error := some "", profile := none }).errorMessage
      = some "Sign in failed. Please try again." := by decide

/-- Claim C6 (amended): on a successful response the UI navigates to the
dashboard; on a failed response loading stops and `errorMessage` shows
`response.error` when it is a non-empty string, and the fallback
`Sign in failed. Please try again.` when `response.error` is null or
empty. -/
theorem login_response_handling (ui : LoginUiState) (r : AuthResponse) :
    (r.success = true →
      (loginHandleResponse ui r).navigatedTo = some "/dashboard") ∧
    (r.success = false →
      (loginHandleResponse ui r).isLoading = false ∧
      (∀ e, r.error = some e → e ≠ "" →
        (loginHandleResponse ui r).errorMessage = some e) ∧
      ((r.error = none ∨ r.error = some "") →
        (loginHandleResponse ui r).errorMessage =
          some "Sign in failed. Please try again.")) := by
  rcases r with ⟨s', error, profile⟩
  cases s'
  · refine ⟨fun h => Bool.noConfusion h,
      fun _ => ⟨by simp [loginHandleResponse], ?_, ?_⟩⟩
    · intro e he hne
      subst he
      simp [loginHandleResponse, jsOrString, hne]
    · rintro (he | he) <;> subst he <;>
        simp [loginHandleResponse, jsOrString]
  · exact ⟨fun _ => by simp [loginHandleResponse],
      fun h => Bool.noConfusion h⟩

/-- Witness for C6 at a concrete successful response. -/
theorem login_response_handling_witness :
    (loginHandleResponse ⟨false, none, none⟩
        { success := true, error := none, profile := none }).navigatedTo =
      some "/dashboard" :=
  (login_response_handling ⟨false, none, none⟩
      { success := true, error := none, profile := none }).1 rfl

/-- Claim C8: submitting an invalid login or registration form issues no
backend request and changes no state: the UI state is unchanged, no
sign-in/sign-up call is made, the service error is not cleared, and the
only effect is marking all controls touched. -/
theorem invalid_submit_no_effect (emailValid : String → Bool)
    (ui : LoginUiState) (lf : LoginFormValue) (rf : RegisterFormValue) :
    (loginFormValid emailValid lf = false →
      loginOnSubmit emailValid ui lf =
        { ui := ui, markedTouched := true, signInCall := none }) ∧
    (registerFormValid emailValid rf = false →
      registerOnSubmit emailValid rf =
        { markedTouched := true, clearErrorCalled := false,
          signUpCall := none }) := by
  constructor <;> intro h <;> simp [loginOnSubmit, registerOnSubmit, h]

/-- Witness for C8 at concrete empty (hence invalid) forms. -/
theorem invalid_submit_no_effect_witness :
    loginOnSubmit (fun _ => false) ⟨false, none, none⟩ ⟨"", "", false⟩ =
      { ui := ⟨false, none, none⟩, markedTouched := true,
        signInCall := none } ∧
    registerOnSubmit (fun _ => false) ⟨"", "", "", ""⟩ =
      { markedTouched := true, clearErrorCalled := false,
        signUpCall := none } :=
  ⟨(invalid_submit_no_effect (fun _ => false) ⟨false, none, none⟩
      ⟨"", "", false⟩ ⟨"", "", "", ""⟩).1 (by decide),
   (invalid_submit_no_effect (fun _ => false) ⟨false, none, none⟩
      ⟨"", "", false⟩ ⟨"", "", "", ""⟩).2 (by decide)⟩
